import Mathlib

/-!
Verification development for the Learnella Telegram bot (`src/bot.py`).

The per-user conversation engine of `bot.py` is shallowly embedded below:
handlers become pure functions on explicit session data, backend HTTP
responses become explicit parameters, and side effects (messages sent,
backend calls issued, temp-file deletion, FSM state changes) become fields
of explicit result records.  Python `float` arithmetic on quiz scores is
modelled exactly with `ℚ` (the scores involved are exact small rationals);
Python runtime errors (`KeyError`, `IndexError`, `ZeroDivisionError`,
JSON-decode errors) are modelled with `Option` / error constructors.
-/

namespace Learnella

/-! ### Model of the Python string operations used by `bot.py`
(`str.strip`, `str.lower`, `int(...)`), restricted to ASCII text. -/

/-- Characters removed by Python `str.strip()` (ASCII whitespace:
space, tab, newline, carriage return, vertical tab, form feed). -/
def pyIsSpace (c : Char) : Bool :=
  c.toNat = 32 || c.toNat = 9 || c.toNat = 10 || c.toNat = 13 ||
  c.toNat = 11 || c.toNat = 12

/-- List-level model of `str.strip()`: drop leading and trailing whitespace. -/
def pyStripList (cs : List Char) : List Char :=
  ((cs.dropWhile pyIsSpace).reverse.dropWhile pyIsSpace).reverse

/-- Model of Python `str.strip()`. -/
def pyStrip (s : String) : String :=
  ⟨pyStripList s.data⟩

/-- Model of Python `str.lower()` on ASCII text (`Char.toLower` lowercases
exactly the ASCII range, which is what the bot's quiz answers use). -/
def pyLower (s : String) : String :=
  ⟨s.data.map Char.toLower⟩

/-- `true` when `c` is an ASCII decimal digit. -/
def digitChar (c : Char) : Bool :=
  '0' ≤ c && c ≤ '9'

/-- Numeric value of an ASCII digit. -/
def digitVal (c : Char) : ℕ :=
  c.toNat - '0'.toNat

/-- Digit-run parser for Python `int(...)`: digits with single underscores
allowed only between digits (`1_000` is valid, `_1`, `1_`, `1__0` are not). -/
def parseDigitsAux (acc : ℕ) : List Char → Option ℕ
  | [] => some acc
  | ['_'] => none
  | '_' :: c :: rest =>
      if digitChar c then parseDigitsAux (10 * acc + digitVal c) rest else none
  | c :: rest =>
      if digitChar c then parseDigitsAux (10 * acc + digitVal c) rest else none

/-- Parse a nonempty digit run (first character must be a digit). -/
def parseDigits : List Char → Option ℕ
  | [] => none
  | c :: rest => if digitChar c then parseDigitsAux (digitVal c) rest else none

/-- Model of Python `int(text)` for ASCII input: surrounding whitespace is
stripped, an optional single sign is allowed, then a digit run with
underscore separators.  Returns `none` where Python raises `ValueError`. -/
def py_int (s : String) : Option ℤ :=
  match (pyStrip s).data with
  | '+' :: rest => (parseDigits rest).map (fun n => (n : ℤ))
  | '-' :: rest => (parseDigits rest).map (fun n => -(n : ℤ))
  | cs => (parseDigits cs).map (fun n => (n : ℤ))

/-! ### Quiz data model (`bot.py` lines 442-505) -/

/-- One quiz question as delivered by the backend: `question_text`,
`options`, `correct_answer` (`bot.py` lines 483-500). -/
structure Question where
  question_text : String
  options : List String
  correct_answer : String
deriving DecidableEq, Repr

/-- A quiz as delivered by `GET /api/core/quizzes/{id}/`. -/
structure Quiz where
  id : ℕ
  title : String
  description : String := ""
  questions : List Question
deriving DecidableEq, Repr

/-- Line 500 of `bot.py`:
`selected_option.strip().lower() == current_question["correct_answer"].strip().lower()`. -/
def answer_matches (selected : String) (q : Question) : Bool :=
  pyLower (pyStrip selected) == pyLower (pyStrip q.correct_answer)

/-- Outcome of `show_quiz_question` (`bot.py` lines 464-491): either the
question at the cursor is displayed, or the completion branch runs and the
percentage `(correct / total) * 100` is computed.  `none` for the score
models the `ZeroDivisionError` Python raises when `total = 0`. -/
inductive QuizShowOutcome where
  | question (idx : ℕ)
  | completed (score : Option ℚ)
deriving DecidableEq, Repr

/-- Embedding of `show_quiz_question` (`bot.py` lines 464-491), which reads
`current_question` (the cursor) and `correct_answers` from the session. -/
def show_quiz_question (quiz : Quiz) (cursor correct : ℕ) : QuizShowOutcome :=
  if cursor ≥ quiz.questions.length then
    QuizShowOutcome.completed
      (if quiz.questions.length = 0 then none
       else some ((correct : ℚ) / (quiz.questions.length : ℚ) * 100))
  else
    QuizShowOutcome.question cursor

/-- Embedding of `quiz_answer_handler` (`bot.py` lines 493-505) acting on the
session pair (cursor, correct count).  `none` models the `IndexError` raised
by `quiz["questions"][current_question_idx]` when the cursor is out of range;
otherwise the correct count is incremented exactly when the normalized
strings match, and the cursor is incremented unconditionally. -/
def quiz_answer_handler (quiz : Quiz) (current_question_idx correct : ℕ)
    (selected : String) : Option (ℕ × ℕ) :=
  match quiz.questions[current_question_idx]? with
  | none => none
  | some q =>
      some (current_question_idx + 1,
        if answer_matches selected q then correct + 1 else correct)

/-- Run `quiz_answer_handler` over a list of selected options in order,
starting from a given (cursor, correct) state. -/
def run_quiz_answers (quiz : Quiz) : List String → ℕ × ℕ → Option (ℕ × ℕ)
  | [], st => some st
  | sel :: rest, (cur, cor) =>
      match quiz_answer_handler quiz cur cor sel with
      | none => none
      | some st2 => run_quiz_answers quiz rest st2

/-- Number of answered questions whose selected option matches the question's
correct answer after strip + lower on both sides. -/
def match_count (quiz : Quiz) (answers : List String) : ℕ :=
  ((quiz.questions.zip answers).filter (fun p => answer_matches p.2 p.1)).length

/-! ### Session store and FSM flow states -/

/-- The aiogram FSM states declared in `bot.py` lines 31-49, plus `noFlow`
for "no state set" (after `state.finish()` or before any flow). -/
inductive FlowState where
  | noFlow
  | waiting_for_username
  | waiting_for_password
  | teacher_waiting_for_subject
  | teacher_waiting_for_audio
  | teacher_waiting_for_title
  | teacher_waiting_for_description
  | teacher_waiting_for_content_type
  | teacher_waiting_for_count
  | in_learning_session
  | in_review_session
deriving DecidableEq, Repr

/-- The aiogram state string returned by `state.get_state()`, compared
literally at `bot.py` lines 368 and 396. -/
def fsm_state_string : FlowState → Option String
  | FlowState.noFlow => none
  | FlowState.waiting_for_username => some "AuthStates:waiting_for_username"
  | FlowState.waiting_for_password => some "AuthStates:waiting_for_password"
  | FlowState.teacher_waiting_for_subject => some "TeacherStates:waiting_for_subject"
  | FlowState.teacher_waiting_for_audio => some "TeacherStates:waiting_for_audio"
  | FlowState.teacher_waiting_for_title => some "TeacherStates:waiting_for_title"
  | FlowState.teacher_waiting_for_description => some "TeacherStates:waiting_for_description"
  | FlowState.teacher_waiting_for_content_type => some "TeacherStates:waiting_for_content_type"
  | FlowState.teacher_waiting_for_count => some "TeacherStates:waiting_for_count"
  | FlowState.in_learning_session => some "StudentStates:in_learning_session"
  | FlowState.in_review_session => some "StudentStates:in_review_session"

/-- A user role, set by `login_handler` (`bot.py` line 63). -/
inductive Role where
  | teacher
  | student
deriving DecidableEq, Repr

/-- One flashcard as delivered by the backend (`id`, `term`, `definition`). -/
structure Card where
  id : ℕ
  term : String
  definition : String
deriving DecidableEq, Repr

/-- The per-user session dictionary stored in `USER_SESSIONS` (`bot.py`
line 26).  The dictionary is created holding only `role` (line 63); every
other key is `none` until the corresponding handler sets it. -/
structure Session where
  role : Role
  username : Option String := none
  access_token : Option String := none
  refresh_token : Option String := none
  current_flashcards : Option (List Card) := none
  current_index : Option ℕ := none
  current_quiz : Option Quiz := none
  current_question : Option ℕ := none
  correct_answers : Option ℕ := none
deriving DecidableEq, Repr

/-- `USER_SESSIONS` as a map from Telegram user id to session dictionary. -/
abbrev SessionStore : Type := ℕ → Option Session

/-- `pat.isPrefixOf cs || ...` scan: Python `pat in text` substring test. -/
def containsSub (pat : List Char) : List Char → Bool
  | [] => pat.isEmpty
  | c :: rest => pat.isPrefixOf (c :: rest) || containsSub pat rest

/-- Line 63 of `bot.py`: `"teacher" if "Teacher" in message.text else "student"`. -/
def role_of_login_text (text : String) : Role :=
  if containsSub "Teacher".data text.data then Role.teacher else Role.student

/-- The dictionary literal `{"role": ...}` assigned at `bot.py` line 63. -/
def fresh_session (r : Role) : Session :=
  { role := r }

/-- Embedding of `login_handler` (`bot.py` lines 60-65):
`USER_SESSIONS[user_id] = {"role": ...}` replaces the whole record. -/
def login_handler (store : SessionStore) (user_id : ℕ) (text : String) :
    SessionStore :=
  fun u => if u = user_id then some (fresh_session (role_of_login_text text))
           else store u

/-! ### Authentication: `process_password` (`bot.py` lines 74-101) -/

/-- Observable result of one `process_password` call: the updated session,
the FSM state afterwards, the messages sent, and which role menu (if any)
the user was routed to. -/
structure PasswordResult where
  sess : Session
  flow : FlowState
  messages : List String
  menu_shown : Option Role
deriving DecidableEq, Repr

/-- The two messages sent on the login-failure branch (`bot.py` lines 99-101). -/
def login_failure_messages : List String :=
  ["❌ Login failed. Please try again.", "Please enter your Attendo username:"]

/-- Embedding of `process_password` (`bot.py` lines 74-101).  `status` is the
HTTP status of `POST /api/token/`; `access`/`refresh` the token pair of its
JSON body.  The branch is `if response.status == 200` — exactly 200, not any
2xx; on 200 both tokens are stored, `state.finish()` clears the flow and the
role menu is shown; on anything else the failure notice is sent and the flow
re-enters `waiting_for_username`. -/
def process_password (sess : Session) (status : ℕ) (access refresh : String) :
    PasswordResult :=
  if status = 200 then
    { sess := { sess with access_token := some access, refresh_token := some refresh },
      flow := FlowState.noFlow,
      messages := [],
      menu_shown := some sess.role }
  else
    { sess := sess,
      flow := FlowState.waiting_for_username,
      messages := login_failure_messages,
      menu_shown := none }

/-! ### Authenticated entry-point gates (`bot.py` lines 116-121, 418-423,
442-447) -/

/-- Outcome of an entry point's auth gate. -/
inductive GateResult where
  | login_prompt
  | proceed (token : String)
deriving DecidableEq, Repr

/-- Embedding of the gate of `take_quiz_handler` (`bot.py` lines 418-423):
`if user_id not in USER_SESSIONS or "access_token" not in
USER_SESSIONS[user_id]: answer "Please login first."; return`. -/
def take_quiz_handler (store : SessionStore) (user_id : ℕ) : GateResult :=
  match store user_id with
  | none => GateResult.login_prompt
  | some s =>
      match s.access_token with
      | none => GateResult.login_prompt
      | some t => GateResult.proceed t

/-- Embedding of the identical gate of `upload_audio_handler` (`bot.py`
lines 116-121). -/
def upload_audio_handler (store : SessionStore) (user_id : ℕ) : GateResult :=
  match store user_id with
  | none => GateResult.login_prompt
  | some s =>
      match s.access_token with
      | none => GateResult.login_prompt
      | some t => GateResult.proceed t

/-- Result of a Python dictionary lookup chain: either the value, or the
`KeyError` the interpreter raises, tagged with the missing key. -/
inductive PyLookup (α : Type) where
  | found (a : α)
  | key_error (key : String)
deriving DecidableEq, Repr

/-- `USER_SESSIONS[user_id]["access_token"]` as evaluated at `bot.py`
line 447 — no membership check precedes it, so a missing user or token
raises `KeyError`. -/
def session_access_token (store : SessionStore) (user_id : ℕ) :
    PyLookup String :=
  match store user_id with
  | none => PyLookup.key_error "user_id"
  | some s =>
      match s.access_token with
      | none => PyLookup.key_error "access_token"
      | some t => PyLookup.found t

/-- Embedding of `start_quiz` (`bot.py` lines 442-462).  The handler builds
the auth header from `USER_SESSIONS[user_id]["access_token"]` with no guard,
then fetches the quiz; on HTTP 200 (`resp = some quiz`) it stores the quiz,
sets `current_question = 0` and `correct_answers = 0`, and immediately calls
`show_quiz_question` — there is no emptiness check on `quiz["questions"]`.
On a non-200 response (`resp = none`) it only answers the callback. -/
def start_quiz (store : SessionStore) (user_id : ℕ) (resp : Option Quiz) :
    PyLookup (Option QuizShowOutcome) :=
  match session_access_token store user_id with
  | PyLookup.key_error k => PyLookup.key_error k
  | PyLookup.found _ =>
      match resp with
      | some quiz => PyLookup.found (some (show_quiz_question quiz 0 0))
      | none => PyLookup.found none

/-! ### Teacher upload wizard: `process_count_and_upload`
(`bot.py` lines 196-248) -/

/-- Lines 199-202 of `bot.py`: `try: count = int(message.text) except
ValueError: count = 10`. -/
def parse_count (text : String) : ℤ :=
  (py_int text).getD 10

/-- The body of a non-201 backend response as seen by the error branches:
either it is not parseable JSON (so `await response.json()` raises), or it
is JSON without an `error` key, or JSON carrying an error message. -/
inductive ErrBody where
  | notJson
  | jsonWithoutError
  | jsonWithError (msg : String)
deriving DecidableEq, Repr

/-- `error_data = await response.json(); error_data.get('error', 'Unknown
error')` (`bot.py` lines 244-245 and 247-248): raises on a non-JSON body,
otherwise produces the message with the `"Unknown error"` fallback. -/
def response_error_field : ErrBody → Except Unit String
  | ErrBody.notJson => Except.error ()
  | ErrBody.jsonWithoutError => Except.ok "Unknown error"
  | ErrBody.jsonWithError msg => Except.ok msg

/-- Observable effects of one `process_count_and_upload` call:
`requested_count` is the count placed in the generation payload,
`upload_called` / `gen_called` record which backend calls were issued,
`temp_deleted` records whether `os.unlink(audio_file_path)` ran,
`flow_cleared` records `state.finish()`, `teacher_menu` records
`show_teacher_menu`, `messages` the user-facing texts sent after the
initial progress notice, and `raised` whether an exception escaped the
handler. -/
structure UploadEffects where
  requested_count : ℤ
  upload_called : Bool
  gen_called : Bool
  gen_audio_id : Option ℕ
  temp_deleted : Bool
  flow_cleared : Bool
  teacher_menu : Bool
  messages : List String
  raised : Bool
deriving DecidableEq, Repr

/-- Embedding of `process_count_and_upload` (`bot.py` lines 196-248).
`up_status`/`up_body` describe the response of `POST /api/core/upload/`,
`audio_id` the id extracted from its success body, and
`gen_status`/`gen_body` the response of `POST /api/core/generate-ai-content/`
(consulted only when the upload succeeded with status 201).  Note that
`os.unlink` appears only in the double-success branch (line 240): no failure
branch deletes the temp file. -/
def process_count_and_upload (count_text : String) (up_status : ℕ)
    (up_body : ErrBody) (audio_id : ℕ) (gen_status : ℕ) (gen_body : ErrBody) :
    UploadEffects :=
  let count := parse_count count_text
  if up_status = 201 then
    if gen_status = 201 then
      { requested_count := count, upload_called := true, gen_called := true,
        gen_audio_id := some audio_id,
        temp_deleted := true, flow_cleared := true, teacher_menu := true,
        messages := ["✅ Content generated successfully!"], raised := false }
    else
      match response_error_field gen_body with
      | Except.ok m =>
          { requested_count := count, upload_called := true, gen_called := true,
            gen_audio_id := some audio_id,
            temp_deleted := false, flow_cleared := false, teacher_menu := false,
            messages := ["❌ Content generation failed: " ++ m], raised := false }
      | Except.error _ =>
          { requested_count := count, upload_called := true, gen_called := true,
            gen_audio_id := some audio_id,
            temp_deleted := false, flow_cleared := false, teacher_menu := false,
            messages := [], raised := true }
  else
    match response_error_field up_body with
    | Except.ok m =>
        { requested_count := count, upload_called := true, gen_called := false,
          gen_audio_id := none,
          temp_deleted := false, flow_cleared := false, teacher_menu := false,
          messages := ["❌ Audio upload failed: " ++ m], raised := false }
    | Except.error _ =>
        { requested_count := count, upload_called := true, gen_called := false,
          gen_audio_id := none,
          temp_deleted := false, flow_cleared := false, teacher_menu := false,
          messages := [], raised := true }

/-! ### Card review engine (`bot.py` lines 308-414) -/

/-- Observable result of `show_current_flashcard` (`bot.py` lines 308-327):
whether the completion announcement and the student menu were emitted, which
card (if any) was displayed, and the FSM flow state after the call.  The
source function never touches the FSM (no `state.finish()` anywhere in it),
so `flow_after` is always the incoming state. -/
structure ShowCardResult where
  completion_announced : Bool
  student_menu_shown : Bool
  card_shown : Option ℕ
  flow_after : FlowState
deriving DecidableEq, Repr

/-- Embedding of `show_current_flashcard` (`bot.py` lines 308-327). -/
def show_current_flashcard (cards : List Card) (cursor : ℕ)
    (flow : FlowState) : ShowCardResult :=
  if cursor ≥ cards.length then
    { completion_announced := true, student_menu_shown := true,
      card_shown := none, flow_after := flow }
  else
    { completion_announced := false, student_menu_shown := false,
      card_shown := some cursor, flow_after := flow }

/-- A grading backend call issued by the review engine. -/
inductive GradeCall where
  | swipe (direction : String)
  | review (was_correct : Bool)
deriving DecidableEq, Repr

/-- Embedding of `skip_card_handler` (`bot.py` lines 352-358): increment
`current_index`, then redisplay via `show_current_flashcard`. -/
def skip_card_handler (cards : List Card) (cursor : ℕ) (flow : FlowState) :
    ℕ × ShowCardResult :=
  (cursor + 1, show_current_flashcard cards (cursor + 1) flow)

/-- Embedding of `knew_it_handler` (`bot.py` lines 360-386): issue the
mode-specific success grading call (chosen by comparing the stringified FSM
state to `"StudentStates:in_learning_session"`, lines 368-381), increment
`current_index`, redisplay. -/
def knew_it_handler (cards : List Card) (cursor : ℕ) (flow : FlowState) :
    ℕ × GradeCall × ShowCardResult :=
  let call :=
    if fsm_state_string flow == some "StudentStates:in_learning_session" then
      GradeCall.swipe "left"
    else
      GradeCall.review true
  (cursor + 1, call, show_current_flashcard cards (cursor + 1) flow)

/-- Embedding of `still_learning_handler` (`bot.py` lines 388-414):
mode-specific failure grading call, increment `current_index`, redisplay. -/
def still_learning_handler (cards : List Card) (cursor : ℕ) (flow : FlowState) :
    ℕ × GradeCall × ShowCardResult :=
  let call :=
    if fsm_state_string flow == some "StudentStates:in_learning_session" then
      GradeCall.swipe "right"
    else
      GradeCall.review false
  (cursor + 1, call, show_current_flashcard cards (cursor + 1) flow)

/-- One user action on a displayed card (the three callback buttons that
advance the session). -/
inductive ReviewAction where
  | skip
  | knew_it
  | still_learning
deriving DecidableEq, Repr

/-- The cursor value after dispatching one action to its handler. -/
def review_action_cursor (cards : List Card) (cursor : ℕ) (flow : FlowState) :
    ReviewAction → ℕ
  | ReviewAction.skip => (skip_card_handler cards cursor flow).1
  | ReviewAction.knew_it => (knew_it_handler cards cursor flow).1
  | ReviewAction.still_learning => (still_learning_handler cards cursor flow).1

/-- Reachable (action count, cursor) pairs of a review session over `cards`,
started at cursor 0 (`bot.py` lines 280-282 and 302-304).  An action is
possible only while a card message with its buttons is displayed, i.e. while
`cursor < cards.length`: once the cursor reaches the batch length,
`show_current_flashcard` emits the completion notice instead of a card, so
no further grading-or-skip callback can be produced (messages are deleted
after each tap, lines 357, 384, 412). -/
inductive ReviewReachable (cards : List Card) (flow : FlowState) :
    ℕ → ℕ → Prop where
  | init : ReviewReachable cards flow 0 0
  | step {k c : ℕ} (h : ReviewReachable cards flow k c)
      (hdisp : c < cards.length) (a : ReviewAction) :
      ReviewReachable cards flow (k + 1) (review_action_cursor cards c flow a)

/-! ### Concrete inputs used to exercise the embedded handlers -/

/-- A concrete flashcard. -/
def demo_card : Card :=
  { id := 1, term := "mitochondria", definition := "organelle producing ATP" }

/-- A concrete two-card review batch. -/
def demo_cards2 : List Card :=
  [demo_card, { id := 2, term := "ribosome", definition := "site of translation" }]

/-- The question from the spec example: answer `"Paris"`. -/
def paris_question : Question :=
  { question_text := "What is the capital of France?",
    options := ["Paris", "London", "Berlin"],
    correct_answer := "Paris" }

/-- A one-question quiz built from `paris_question`. -/
def paris_quiz : Quiz :=
  { id := 1, title := "Geography", questions := [paris_question] }

/-- A quiz whose `questions` list is empty. -/
def empty_quiz : Quiz :=
  { id := 5, title := "Empty quiz", questions := [] }

/-- A store in which every user is logged in with a token. -/
def demo_store : SessionStore :=
  fun _ => some { role := Role.student, access_token := some "tok" }

/-- A prior session holding stored tokens, for the login-replacement claim. -/
def c10_prior : Session :=
  { role := Role.teacher, username := some "anna",
    access_token := some "old-access", refresh_token := some "old-refresh" }

/-- A store mapping user 7 to `c10_prior`. -/
def c10_store : SessionStore :=
  fun u => if u = 7 then some c10_prior else none

/-! ### Shared lemma about running a quiz to completion -/

/-- Running the answer handler over a list of selections that exactly covers
the remaining questions lands the cursor on the question count and adds to
the correct counter exactly the number of normalized matches among the
remaining (question, selection) pairs. -/
theorem run_quiz_answers_drop (quiz : Quiz) :
    ∀ (answers : List String) (cur cor : ℕ),
      cur + answers.length = quiz.questions.length →
      run_quiz_answers quiz answers (cur, cor) =
        some (quiz.questions.length,
          cor + (((quiz.questions.drop cur).zip answers).filter
                  (fun p => answer_matches p.2 p.1)).length) := by
  intro answers
  induction answers with
  | nil =>
      intro cur cor h
      simp only [List.length_nil, Nat.add_zero] at h
      simp [run_quiz_answers, h]
  | cons sel rest ih =>
      intro cur cor h
      have hcur : cur < quiz.questions.length := by
        simp only [List.length_cons] at h
        omega
      have hq : quiz.questions[cur]? = some quiz.questions[cur] :=
        List.getElem?_eq_getElem hcur
      rw [run_quiz_answers, quiz_answer_handler, hq]
      simp only []
      rw [ih (cur + 1) _ (by simp only [List.length_cons] at h; omega)]
      rw [List.drop_eq_getElem_cons hcur]
      simp only [List.zip_cons_cons, List.filter_cons]
      by_cases hm : answer_matches sel quiz.questions[cur] = true
      · simp only [hm, if_true, List.length_cons, Option.some.injEq,
          Prod.mk.injEq, true_and]
        omega
      · simp [hm]

/-! ### Claim theorems -/

/-- Claim C1: in a card-review session over a batch of N cards started at
cursor 0, every user action (Skip, "I knew it", "Still learning") increases
the cursor by exactly 1 and the cursor never decreases; hence in every
reachable state `0 ≤ cursor ≤ N` (the lower bound is inherent to `ℕ`), the
cursor after k actions is exactly k, completion (`cursor = N`) is reached
after exactly N grading-or-skip actions, and is reached only then. -/
theorem claim_C1_review_cursor_invariant :
    (∀ (cards : List Card) (cursor : ℕ) (flow : FlowState) (a : ReviewAction),
        review_action_cursor cards cursor flow a = cursor + 1) ∧
    (∀ (cards : List Card) (flow : FlowState) (k c : ℕ),
        ReviewReachable cards flow k c → c = k ∧ c ≤ cards.length) ∧
    (∀ (cards : List Card) (flow : FlowState),
        ReviewReachable cards flow cards.length cards.length) ∧
    (∀ (cards : List Card) (flow : FlowState) (k c : ℕ),
        ReviewReachable cards flow k c → (c = cards.length ↔ k = cards.length)) := by
  have hstep : ∀ (cards : List Card) (cursor : ℕ) (flow : FlowState)
      (a : ReviewAction), review_action_cursor cards cursor flow a = cursor + 1 := by
    intro cards cursor flow a
    cases a <;> rfl
  have hinv : ∀ (cards : List Card) (flow : FlowState) (k c : ℕ),
      ReviewReachable cards flow k c → c = k ∧ c ≤ cards.length := by
    intro cards flow k c h
    induction h with
    | init => exact ⟨rfl, Nat.zero_le _⟩
    | @step k c h hdisp a ih =>
        rw [hstep]
        exact ⟨by rw [ih.1], hdisp⟩
  have hreach : ∀ (cards : List Card) (flow : FlowState) (j : ℕ),
      j ≤ cards.length → ReviewReachable cards flow j j := by
    intro cards flow j
    induction j with
    | zero => intro _; exact ReviewReachable.init
    | succ n ih =>
        intro hle
        have hn : n < cards.length := Nat.lt_of_lt_of_le (Nat.lt_succ_self n) hle
        have hs := ReviewReachable.step (ih (Nat.le_of_lt hn)) hn ReviewAction.skip
        rwa [hstep] at hs
  refine ⟨hstep, hinv, fun cards flow => hreach cards flow _ (Nat.le_refl _), ?_⟩
  intro cards flow k c h
  rw [(hinv cards flow k c h).1]

/-- Claim C1 witness: in a concrete two-card session, a Skip advances the
cursor from 0 to 1, after one action the cursor is 1 ≤ 2, and the
completion state (cursor = 2) is reachable in exactly 2 actions. -/
theorem claim_C1_witness :
    review_action_cursor demo_cards2 0 FlowState.in_learning_session
        ReviewAction.skip = 1 ∧
    (1 = 1 ∧ 1 ≤ demo_cards2.length) ∧
    ReviewReachable demo_cards2 FlowState.in_learning_session 2 2 :=
  ⟨claim_C1_review_cursor_invariant.1 demo_cards2 0 FlowState.in_learning_session
      ReviewAction.skip,
   claim_C1_review_cursor_invariant.2.1 demo_cards2 FlowState.in_learning_session 1 1
     (ReviewReachable.step ReviewReachable.init (by decide) ReviewAction.skip),
   claim_C1_review_cursor_invariant.2.2.1 demo_cards2 FlowState.in_learning_session⟩

/-- Claim C3 (code bug): when the audio-upload call returns a non-success
status (here 404 with a JSON error body), no generation call is issued —
that half of the claim holds — but the temporary audio file is NOT deleted:
`os.unlink(audio_file_path)` appears only in the double-success branch of
`process_count_and_upload` (`bot.py` line 240), so the failure path leaks
the temp file, contradicting the claim's guaranteed-cleanup half. -/
theorem claim_C3_upload_failure_leaks_temp_file :
    (process_count_and_upload "5" 404 (ErrBody.jsonWithError "bad request")
        0 0 ErrBody.jsonWithoutError).gen_called = false ∧
    (process_count_and_upload "5" 404 (ErrBody.jsonWithError "bad request")
        0 0 ErrBody.jsonWithoutError).temp_deleted = false ∧
    (process_count_and_upload "5" 404 (ErrBody.jsonWithError "bad request")
        0 0 ErrBody.jsonWithoutError).messages =
      ["❌ Audio upload failed: bad request"] :=
  ⟨rfl, rfl, rfl⟩

/-- Claim C4 (code bug): `start_quiz` performs no emptiness check on the
fetched quiz, so selecting a quiz whose question list is empty is NOT
rejected: the session is initialized and `show_quiz_question` immediately
runs its completion branch with `totalQuestions = 0`, where
`(correct / total) * 100` divides by zero (modelled by the `none` score) —
the divide-by-zero branch the claim calls unreachable is reached. -/
theorem claim_C4_empty_quiz_reaches_division_by_zero :
    start_quiz demo_store 1 (some empty_quiz) =
      PyLookup.found (some (QuizShowOutcome.completed none)) :=
  rfl

/-- Claim C5 counterexample: the code branches on `response.status == 200`,
not on "any 2xx": status 204 is a 2xx success status, yet `process_password`
stores no token, sends the failure notice and restarts at AwaitingUsername. -/
theorem claim_C5_counterexample :
    (200 ≤ 204 ∧ 204 < 300) ∧
    (process_password { role := Role.student } 204 "acc" "ref").sess.access_token
      = none ∧
    (process_password { role := Role.student } 204 "acc" "ref").flow
      = FlowState.waiting_for_username ∧
    (process_password { role := Role.student } 204 "acc" "ref").messages
      = login_failure_messages := by
  exact ⟨⟨by decide, by decide⟩, rfl, rfl, rfl⟩

/-- Claim C5 (amended): `process_password` treats exactly status 200 as
success — storing both tokens, clearing the flow state and routing to the
role's menu — and every non-200 status (2xx or not) uniformly as invalid
credentials: failure notice, flow back to AwaitingUsername, session
untouched; moreover any two non-200 statuses produce identical results. -/
theorem claim_C5_exact_status_200 (sess : Session) (status : ℕ)
    (access refresh : String) :
    (status = 200 →
      process_password sess status access refresh =
        { sess := { sess with access_token := some access,
                              refresh_token := some refresh },
          flow := FlowState.noFlow, messages := [],
          menu_shown := some sess.role }) ∧
    (status ≠ 200 →
      process_password sess status access refresh =
        { sess := sess, flow := FlowState.waiting_for_username,
          messages := login_failure_messages, menu_shown := none }) ∧
    (∀ status2 : ℕ, status ≠ 200 → status2 ≠ 200 →
      process_password sess status access refresh =
        process_password sess status2 access refresh) := by
  refine ⟨fun h => ?_, fun h => ?_, fun status2 h h2 => ?_⟩ <;>
    simp [process_password, h, *]

/-- Claim C5 witness: on status 200 the teacher session gains both tokens
and is routed to the teacher menu with the flow cleared; on status 404 the
failure messages are sent and the flow is AwaitingUsername. -/
theorem claim_C5_witness :
    process_password { role := Role.teacher } 200 "a" "r" =
      { sess := { role := Role.teacher, access_token := some "a",
                  refresh_token := some "r" },
        flow := FlowState.noFlow, messages := [],
        menu_shown := some Role.teacher } ∧
    process_password { role := Role.teacher } 404 "a" "r" =
      { sess := { role := Role.teacher },
        flow := FlowState.waiting_for_username,
        messages := login_failure_messages, menu_shown := none } :=
  ⟨(claim_C5_exact_status_200 { role := Role.teacher } 200 "a" "r").1 rfl,
   (claim_C5_exact_status_200 { role := Role.teacher } 404 "a" "r").2.1
     (by decide)⟩

/-- Claim C6 counterexample: completing a one-card review session with a
Skip makes `show_current_flashcard` announce completion and show the
student menu, but the flow state is NOT cleared — it is still
`in_learning_session`, not `noFlow`, because the function contains no
`state.finish()` (`bot.py` lines 308-314). -/
theorem claim_C6_counterexample :
    (skip_card_handler [demo_card] 0 FlowState.in_learning_session).2.completion_announced
      = true ∧
    (skip_card_handler [demo_card] 0 FlowState.in_learning_session).2.student_menu_shown
      = true ∧
    (skip_card_handler [demo_card] 0 FlowState.in_learning_session).2.flow_after
      ≠ FlowState.noFlow :=
  ⟨rfl, rfl, by decide⟩

/-- Claim C6 (amended): when the cursor reaches `len(cards)`, the engine
announces session completion and returns the user to the student menu, but
the session's flow state is left unchanged (the StudentInLearning /
StudentInReview state still holds afterwards — it is never cleared). -/
theorem claim_C6_completion_keeps_flow (cards : List Card) (cursor : ℕ)
    (flow : FlowState) (h : cursor = cards.length) :
    (show_current_flashcard cards cursor flow).completion_announced = true ∧
    (show_current_flashcard cards cursor flow).student_menu_shown = true ∧
    (show_current_flashcard cards cursor flow).flow_after = flow := by
  subst h
  simp [show_current_flashcard]

/-- Claim C6 witness: the amended statement evaluated at a concrete one-card
batch in review mode. -/
theorem claim_C6_witness :
    (show_current_flashcard [demo_card] 1 FlowState.in_review_session).completion_announced
      = true ∧
    (show_current_flashcard [demo_card] 1 FlowState.in_review_session).student_menu_shown
      = true ∧
    (show_current_flashcard [demo_card] 1 FlowState.in_review_session).flow_after
      = FlowState.in_review_session :=
  claim_C6_completion_keeps_flow [demo_card] 1 FlowState.in_review_session rfl

/-- Claim C2: over a quiz attempt of M questions answered to completion,
(a) the attempt ends with the cursor at M and the correct counter equal to
the number of answered questions whose selection matches; (b) the reported
percentage is `100 * correctCount / M`; (c) it is 100 when every selection
matches after trimming and lowercasing; (d) a selection is counted correct
iff it equals the correct answer after `strip` + `lower` on both sides; and
(e) the question cursor advances by exactly 1 on every answer regardless of
correctness. -/
theorem claim_C2_quiz_grading (quiz : Quiz) (answers : List String)
    (hlen : answers.length = quiz.questions.length)
    (hpos : 0 < quiz.questions.length) :
    run_quiz_answers quiz answers (0, 0) =
      some (quiz.questions.length, match_count quiz answers) ∧
    show_quiz_question quiz quiz.questions.length (match_count quiz answers) =
      QuizShowOutcome.completed
        (some (100 * (match_count quiz answers : ℚ) /
          (quiz.questions.length : ℚ))) ∧
    ((∀ p ∈ quiz.questions.zip answers, answer_matches p.2 p.1 = true) →
      show_quiz_question quiz quiz.questions.length (match_count quiz answers) =
        QuizShowOutcome.completed (some 100)) ∧
    (∀ (sel : String) (q : Question), answer_matches sel q = true ↔
        pyLower (pyStrip sel) = pyLower (pyStrip q.correct_answer)) ∧
    (∀ (cur cor : ℕ) (sel : String) (st : ℕ × ℕ),
        quiz_answer_handler quiz cur cor sel = some st → st.1 = cur + 1) := by
  have hrun : run_quiz_answers quiz answers (0, 0) =
      some (quiz.questions.length, match_count quiz answers) := by
    have := run_quiz_answers_drop quiz answers 0 0 (by omega)
    simpa [match_count] using this
  have hshow : show_quiz_question quiz quiz.questions.length
      (match_count quiz answers) =
      QuizShowOutcome.completed
        (some (100 * (match_count quiz answers : ℚ) /
          (quiz.questions.length : ℚ))) := by
    have hne : quiz.questions.length ≠ 0 := Nat.pos_iff_ne_zero.mp hpos
    simp only [show_quiz_question, ge_iff_le, le_refl, if_true, hne, if_false]
    rw [div_mul_eq_mul_div, mul_comm]
  refine ⟨hrun, hshow, fun hall => ?_, fun sel q => ?_, fun cur cor sel st h => ?_⟩
  · have hfilter : (quiz.questions.zip answers).filter
        (fun p => answer_matches p.2 p.1) = quiz.questions.zip answers :=
      List.filter_eq_self.mpr hall
    have hmc : match_count quiz answers = quiz.questions.length := by
      rw [match_count, hfilter, List.length_zip, hlen, Nat.min_self]
    rw [hshow, hmc]
    have hq0 : (quiz.questions.length : ℚ) ≠ 0 := by
      exact_mod_cast Nat.pos_iff_ne_zero.mp hpos
    congr 1
    rw [mul_div_assoc, div_self hq0, mul_one]
  · simp [answer_matches]
  · rw [quiz_answer_handler] at h
    cases hq : quiz.questions[cur]? with
    | none => rw [hq] at h; exact absurd h (by simp)
    | some q =>
        rw [hq] at h
        simp only [Option.some.injEq] at h
        rw [← h]

/-- Claim C2 witness: for the one-question quiz with correct answer
`"Paris"`, the single selection `" paris "` is graded correct after
trimming and lowercasing, the cursor ends at 1, and the reported
percentage is exactly 100. -/
theorem claim_C2_witness :
    run_quiz_answers paris_quiz [" paris "] (0, 0) =
      some (1, match_count paris_quiz [" paris "]) ∧
    show_quiz_question paris_quiz 1 (match_count paris_quiz [" paris "]) =
      QuizShowOutcome.completed (some 100) ∧
    answer_matches " paris " paris_question = true :=
  ⟨(claim_C2_quiz_grading paris_quiz [" paris "] rfl (by decide)).1,
   (claim_C2_quiz_grading paris_quiz [" paris "] rfl (by decide)).2.2.1
     (by decide),
   by decide⟩

/-- Claim C7: at the AwaitingCount step, text that parses as a Python
integer yields that integer as `requestedCount`; text that does not parse
(any `ValueError`) defaults to 10; and the input is never rejected — for
every count text the handler proceeds to the upload submission with
`requested_count = parse_count text`. -/
theorem claim_C7_count_default (t : String) :
    (∀ n : ℤ, py_int t = some n → parse_count t = n) ∧
    (py_int t = none → parse_count t = 10) ∧
    (∀ (st : ℕ) (ub : ErrBody) (aid gst : ℕ) (gb : ErrBody),
      (process_count_and_upload t st ub aid gst gb).upload_called = true ∧
      (process_count_and_upload t st ub aid gst gb).requested_count =
        parse_count t) := by
  refine ⟨fun n h => by simp [parse_count, h], fun h => by simp [parse_count, h],
    fun st ub aid gst gb => ⟨?_, ?_⟩⟩ <;>
  · unfold process_count_and_upload
    by_cases h1 : st = 201 <;> by_cases h2 : gst = 201 <;>
      cases hub : response_error_field ub <;>
      cases hgb : response_error_field gb <;>
      simp [h1, h2, hub, hgb]

/-- Claim C7 witness: `"abc"` does not parse, so the count defaults to 10,
and the wizard still proceeds to the upload call. -/
theorem claim_C7_witness :
    py_int "abc" = none ∧ parse_count "abc" = 10 ∧
    py_int "17" = some 17 ∧ parse_count "17" = 17 ∧
    (process_count_and_upload "abc" 404 (ErrBody.jsonWithError "e") 0 0
        ErrBody.jsonWithoutError).upload_called = true ∧
    (process_count_and_upload "abc" 404 (ErrBody.jsonWithError "e") 0 0
        ErrBody.jsonWithoutError).requested_count = 10 :=
  ⟨rfl, (claim_C7_count_default "abc").2.1 rfl, rfl,
   (claim_C7_count_default "17").1 17 rfl,
   ((claim_C7_count_default "abc").2.2 404 (ErrBody.jsonWithError "e") 0 0
      ErrBody.jsonWithoutError).1,
   by
     rw [((claim_C7_count_default "abc").2.2 404 (ErrBody.jsonWithError "e") 0 0
       ErrBody.jsonWithoutError).2]
     exact (claim_C7_count_default "abc").2.1 rfl⟩

/-- Claim C8 counterexample: a non-2xx upload response whose body is not
parseable JSON does NOT fall back to "Unknown error": `await
response.json()` raises before any message is sent, so the exception
propagates past the flow step and no failure message is emitted. -/
theorem claim_C8_counterexample :
    (process_count_and_upload "5" 404 ErrBody.notJson 0 0
        ErrBody.jsonWithoutError).raised = true ∧
    (process_count_and_upload "5" 404 ErrBody.notJson 0 0
        ErrBody.jsonWithoutError).messages = [] :=
  ⟨rfl, rfl⟩

/-- Claim C8 (amended): for a non-2xx backend response whose body parses as
JSON but carries no `error` field, the user-facing message falls back to
"Unknown error" and nothing is raised — on both the upload and the
generation branch; but when the body is not parseable JSON at all,
`response.json()` raises and the exception propagates past the flow step
with no message sent. -/
theorem claim_C8_unknown_error_fallback (t : String) (st aid gst : ℕ) :
    (st ≠ 201 →
      (process_count_and_upload t st ErrBody.jsonWithoutError aid gst
          ErrBody.jsonWithoutError).messages =
        ["❌ Audio upload failed: Unknown error"] ∧
      (process_count_and_upload t st ErrBody.jsonWithoutError aid gst
          ErrBody.jsonWithoutError).raised = false) ∧
    (st ≠ 201 → ∀ gb : ErrBody,
      (process_count_and_upload t st ErrBody.notJson aid gst gb).raised = true ∧
      (process_count_and_upload t st ErrBody.notJson aid gst gb).messages = []) ∧
    (gst ≠ 201 → ∀ ub : ErrBody,
      (process_count_and_upload t 201 ub aid gst
          ErrBody.jsonWithoutError).messages =
        ["❌ Content generation failed: Unknown error"] ∧
      (process_count_and_upload t 201 ub aid gst
          ErrBody.jsonWithoutError).raised = false) ∧
    (gst ≠ 201 → ∀ ub : ErrBody,
      (process_count_and_upload t 201 ub aid gst ErrBody.notJson).raised
        = true) := by
  refine ⟨fun h => ?_, fun h gb => ?_, fun h ub => ?_, fun h ub => ?_⟩ <;>
    simp [process_count_and_upload, response_error_field, h]

/-- Claim C8 witness: the "Unknown error" fallback evaluated concretely on
a failed upload (status 400) and on a failed generation (status 500). -/
theorem claim_C8_witness :
    (process_count_and_upload "7" 400 ErrBody.jsonWithoutError 0 0
        ErrBody.jsonWithoutError).messages =
      ["❌ Audio upload failed: Unknown error"] ∧
    (process_count_and_upload "7" 201 ErrBody.jsonWithoutError 3 500
        ErrBody.jsonWithoutError).messages =
      ["❌ Content generation failed: Unknown error"] :=
  ⟨((claim_C8_unknown_error_fallback "7" 400 0 0).1 (by decide)).1,
   ((claim_C8_unknown_error_fallback "7" 201 3 500).2.2.1 (by decide)
      ErrBody.jsonWithoutError).1⟩

/-- Claim C9 counterexample: with an empty session store, the quiz-list
handler `take_quiz_handler` aborts with a login prompt, but the
quiz-selection callback `start_quiz` performs no such check: its very first
use of the session is `USER_SESSIONS[user_id]["access_token"]`, which fails
with a `KeyError` on the session lookup — the claim that it checks first
and does not fail on the lookup is false. -/
theorem claim_C9_counterexample :
    take_quiz_handler (fun _ => none) 7 = GateResult.login_prompt ∧
    start_quiz (fun _ => none) 7 (some paris_quiz) =
      PyLookup.key_error "user_id" :=
  ⟨rfl, rfl⟩

/-- Claim C9 (amended): the teacher upload entry point and the quiz-list
entry point both check that the session exists and holds an access token,
aborting with a login prompt otherwise; but the quiz-selection callback
`start_quiz` performs no check and raises `KeyError` on the session lookup
(for a missing session) or on the token lookup (for a token-less session). -/
theorem claim_C9_auth_gates (store : SessionStore) (uid : ℕ) :
    (store uid = none →
      take_quiz_handler store uid = GateResult.login_prompt ∧
      upload_audio_handler store uid = GateResult.login_prompt ∧
      ∀ resp : Option Quiz,
        start_quiz store uid resp = PyLookup.key_error "user_id") ∧
    (∀ s : Session, store uid = some s → s.access_token = none →
      take_quiz_handler store uid = GateResult.login_prompt ∧
      upload_audio_handler store uid = GateResult.login_prompt ∧
      ∀ resp : Option Quiz,
        start_quiz store uid resp = PyLookup.key_error "access_token") := by
  constructor
  · intro h
    refine ⟨?_, ?_, fun resp => ?_⟩ <;>
      simp [take_quiz_handler, upload_audio_handler, start_quiz,
        session_access_token, h]
  · intro s hs ht
    refine ⟨?_, ?_, fun resp => ?_⟩ <;>
      simp [take_quiz_handler, upload_audio_handler, start_quiz,
        session_access_token, hs, ht]

/-- Claim C9 witness: the amended statement evaluated on the empty store. -/
theorem claim_C9_witness :
    take_quiz_handler (fun _ => none) 3 = GateResult.login_prompt ∧
    upload_audio_handler (fun _ => none) 3 = GateResult.login_prompt ∧
    start_quiz (fun _ => none) 3 (some empty_quiz) =
      PyLookup.key_error "user_id" :=
  ⟨((claim_C9_auth_gates (fun _ => none) 3).1 rfl).1,
   ((claim_C9_auth_gates (fun _ => none) 3).1 rfl).2.1,
   ((claim_C9_auth_gates (fun _ => none) 3).1 rfl).2.2 (some empty_quiz)⟩

/-- Claim C10: tapping a role-selection button replaces the user's whole
session record with a fresh one holding only the chosen role — previously
stored tokens, username and all other session fields are discarded — while
other users' sessions are untouched. -/
theorem claim_C10_login_replaces_session (store : SessionStore) (uid : ℕ)
    (prior : Session) (text : String) (hprior : store uid = some prior) :
    login_handler store uid text uid =
      some (fresh_session (role_of_login_text text)) ∧
    (fresh_session (role_of_login_text text)).access_token = none ∧
    (fresh_session (role_of_login_text text)).refresh_token = none ∧
    (fresh_session (role_of_login_text text)).username = none ∧
    (fresh_session (role_of_login_text text)).current_flashcards = none ∧
    (∀ u : ℕ, u ≠ uid → login_handler store uid text u = store u) := by
  refine ⟨by simp [login_handler], rfl, rfl, rfl, rfl, fun u hu => ?_⟩
  simp [login_handler, hu]

/-- Claim C10 witness: user 7 holds stored tokens; after tapping the
student login button their record is exactly the fresh student session
(tokens gone). -/
theorem claim_C10_witness :
    login_handler c10_store 7 "Login as Student" 7 =
      some (fresh_session (role_of_login_text "Login as Student")) ∧
    (fresh_session (role_of_login_text "Login as Student")).access_token
      = none :=
  ⟨(claim_C10_login_replaces_session c10_store 7 c10_prior "Login as Student"
      rfl).1,
   (claim_C10_login_replaces_session c10_store 7 c10_prior "Login as Student"
      rfl).2.1⟩

end Learnella
